import Mathlib

/-!
Shallow embedding of the EcoWatcher telemetry dashboard core
(`database.py`, `main.py`, `app/main.py`): the zone registry with its
featured-capacity policy, the alert log, the conversation memory, the
threshold evaluator, and the chat context assembly.

SQLite tables are modelled as Lean lists kept in rowid (insertion)
order; `ORDER BY` clauses become explicit sorts, `COUNT(*)` becomes
`countP`, and a Python expression that raises an uncaught exception is
modelled by an `Option`-valued function returning `none`.
Timestamps (`datetime.now()`) are modelled by a strictly increasing
logical clock stored in the database state.
-/

/-- Row of the `zones` table:
`id INTEGER PRIMARY KEY, name TEXT, lat REAL, lon REAL, featured INTEGER DEFAULT 0`. -/
structure Zone where
  id : Nat
  name : String
  lat : Rat
  lon : Rat
  featured : Bool
  deriving DecidableEq

/-- Row of the `alerts` table:
`id INTEGER PRIMARY KEY AUTOINCREMENT, timestamp, zone_name, temp, humidity, wind, aqi, uv, noise, reason`. -/
structure Alert where
  id : Nat
  timestamp : Nat
  zone_name : String
  temp : Rat
  humidity : Rat
  wind : Rat
  aqi : Int
  uv : Rat
  noise : Rat
  reason : String
  deriving DecidableEq

/-- Row of the `chat_history` table:
`id INTEGER PRIMARY KEY AUTOINCREMENT, session_id TEXT, role TEXT, content TEXT, timestamp DATETIME`. -/
structure ChatMsg where
  id : Nat
  session_id : String
  role : String
  content : String
  timestamp : Nat
  deriving DecidableEq

/-- The whole SQLite database `data.db`, plus the auto-increment
counters and the logical clock used for timestamps. -/
structure DB where
  zones : List Zone
  alerts : List Alert
  chats : List ChatMsg
  nextAlertId : Nat
  nextChatId : Nat
  clock : Nat
  deriving DecidableEq

/-- State right after `init_db()` on a fresh file: all three tables
exist and are empty; AUTOINCREMENT counters start at 1. -/
def emptyDB : DB :=
  { zones := [], alerts := [], chats := [], nextAlertId := 1, nextChatId := 1, clock := 0 }

/-- Translation of `SELECT COUNT(*) FROM zones WHERE featured = 1`. -/
def featuredCount (db : DB) : Nat :=
  db.zones.countP (fun z => z.featured)

/-- Row transformer of `UPDATE zones SET featured = 1 - featured WHERE id = ?`. -/
def flipAt (zone_id : Nat) (z : Zone) : Zone :=
  if z.id == zone_id then { z with featured := !z.featured } else z

/-- Database state after the `UPDATE ... WHERE id = ?` statement of
`toggle_zone_featured`. -/
def toggleFlip (db : DB) (zone_id : Nat) : DB :=
  { db with zones := db.zones.map (flipAt zone_id) }

/-- Translation of `database.toggle_zone_featured`.  The source reads
`fetchone()[0]` on the `SELECT featured ... WHERE id = ?` result; when
no row matches, `fetchone()` is `None` and the subscript raises an
uncaught `TypeError`, modelled here as `none`.  Otherwise: a currently
unfeatured zone with the featured count already at 5 yields
`(False, unchanged state)`; every other case flips the flag and yields
`True`. -/
def toggle_zone_featured (db : DB) (zone_id : Nat) : Option (Bool × DB) :=
  match db.zones.find? (fun z => z.id == zone_id) with
  | none => none
  | some row =>
    if row.featured = false ∧ 5 ≤ featuredCount db then
      some (false, db)
    else
      some (true, toggleFlip db zone_id)

/-- Largest id currently in the `zones` table; SQLite assigns
`max(rowid) + 1` to an `INTEGER PRIMARY KEY` insert that omits the id. -/
def maxZoneId (db : DB) : Nat :=
  db.zones.foldl (fun m z => max m z.id) 0

/-- Translation of `database.add_zone`: counts the featured zones, sets
`featured` to 1 exactly when that count is below 5, and inserts the row. -/
def add_zone (db : DB) (name : String) (lat lon : Rat) : DB :=
  { db with
    zones := db.zones ++
      [{ id := maxZoneId db + 1, name := name, lat := lat, lon := lon,
         featured := decide (featuredCount db < 5) }] }

/-- Translation of `database.remove_zone`: `DELETE FROM zones WHERE id = ?`
deletes the matching rows (a non-matching id deletes nothing and raises
nothing). -/
def remove_zone (db : DB) (zone_id : Nat) : DB :=
  { db with zones := db.zones.filter (fun z => z.id != zone_id) }

/-- Translation of `database.get_zones` (`SELECT * FROM zones` in rowid
order). -/
def get_zones (db : DB) : List Zone :=
  db.zones

/-- The `default_zones` literal of `database.seed_zones`. -/
def default_zones : List (String × Rat × Rat) :=
  [("Mumbai Central", 18.96, 72.82),
   ("Delhi Tech Zone", 28.61, 77.20),
   ("Bangalore SEZ", 12.97, 77.59),
   ("Kolkata Hub", 22.57, 88.36),
   ("Chennai Port", 13.08, 80.27),
   ("Hyderabad Hitech", 17.38, 78.48),
   ("Pune Smart City", 18.52, 73.85),
   ("Ahmedabad West", 23.02, 72.57),
   ("Jaipur North", 26.91, 75.78),
   ("Surat Industrial", 21.17, 72.83)]

/-- Translation of `database.seed_zones`: when the zones table is empty,
add each default zone through `add_zone` (which auto-features the first
five). -/
def seed_zones (db : DB) : DB :=
  if (get_zones db).isEmpty then
    default_zones.foldl (fun d z => add_zone d z.1 z.2.1 z.2.2) db
  else
    db

/-- Translation of `database.reset_and_reseed`: drop all three tables,
re-create them empty (`init_db`), and re-seed the default zones. -/
def reset_and_reseed (_db : DB) : DB :=
  seed_zones emptyDB

/-- The zone table produced by seeding an empty database: ids 1 to 10
in seed order, the first five featured. -/
def seedZonesList : List Zone :=
  [⟨1, "Mumbai Central", 18.96, 72.82, true⟩,
   ⟨2, "Delhi Tech Zone", 28.61, 77.20, true⟩,
   ⟨3, "Bangalore SEZ", 12.97, 77.59, true⟩,
   ⟨4, "Kolkata Hub", 22.57, 88.36, true⟩,
   ⟨5, "Chennai Port", 13.08, 80.27, true⟩,
   ⟨6, "Hyderabad Hitech", 17.38, 78.48, false⟩,
   ⟨7, "Pune Smart City", 18.52, 73.85, false⟩,
   ⟨8, "Ahmedabad West", 23.02, 72.57, false⟩,
   ⟨9, "Jaipur North", 26.91, 75.78, false⟩,
   ⟨10, "Surat Industrial", 21.17, 72.83, false⟩]

/-- State of the application after startup (`init_db` then `seed_zones`,
as in the FastAPI lifespan hook). -/
def initialDB : DB :=
  seed_zones emptyDB

/-- Zone-registry operations reachable from the HTTP layer:
`/add_zone`, `/pin_zone/:id`, `/delete_zone/:id`, `/api/system/reset`. -/
inductive RegOp where
  | register (name : String) (lat lon : Rat)
  | toggle (zone_id : Nat)
  | remove (zone_id : Nat)
  | reset

/-- Effect of one registry operation on the database: a toggle on a
missing id raises before any write, leaving the state unchanged. -/
def applyOp (db : DB) : RegOp → DB
  | RegOp.register n la lo => add_zone db n la lo
  | RegOp.toggle i =>
    match toggle_zone_featured db i with
    | none => db
    | some r => r.2
  | RegOp.remove i => remove_zone db i
  | RegOp.reset => reset_and_reseed db

/-- Effect of a sequence of registry operations. -/
def applyOps (db : DB) (ops : List RegOp) : DB :=
  ops.foldl applyOp db

/-- Registry well-formedness: zone ids are unique (they populate an
`INTEGER PRIMARY KEY` column) and at most five zones are featured. -/
def ZoneInv (db : DB) : Prop :=
  (db.zones.map Zone.id).Nodup ∧ featuredCount db ≤ 5

/-- Concrete registry with six zones, the first five featured, used to
instantiate the toggle theorems. -/
def zdbW : DB :=
  { zones := [⟨1, "a", 0, 0, true⟩, ⟨2, "b", 0, 0, true⟩, ⟨3, "c", 0, 0, true⟩,
              ⟨4, "d", 0, 0, true⟩, ⟨5, "e", 0, 0, true⟩, ⟨6, "f", 0, 0, false⟩],
    alerts := [], chats := [], nextAlertId := 1, nextChatId := 1, clock := 0 }

/-- One telemetry sample, the dict produced by
`generate_synthetic_data` in `app/main.py` (six environmental
parameters). -/
structure MetricSample where
  temp : Rat
  humidity : Rat
  wind_speed : Rat
  aqi : Int
  uv : Rat
  noise : Rat
  deriving DecidableEq

/-- The `THRESHOLDS` configuration dict of `app/main.py`. -/
structure Thresholds where
  temp : Rat
  aqi : Int
  uv : Rat
  noise : Rat
  wind_speed : Rat

/-- Threshold values from `app/main.py`: temp 40.0, aqi 150, uv 8.0,
noise 85.0, wind_speed 20.0. -/
def THRESHOLDS : Thresholds :=
  { temp := 40, aqi := 150, uv := 8, noise := 85, wind_speed := 20 }

/-- Translation of `evaluate_alerts` in `app/main.py`: check the five
rules in source order (aqi, temp, uv, noise, wind_speed), collect the
breach labels, and return `none` when no rule fires, else the labels
joined with a comma and a space. -/
def evaluate_alerts (data : MetricSample) : Option String :=
  let alerts : List String :=
    (if THRESHOLDS.aqi < data.aqi then ["High Pollution"] else []) ++
    (if THRESHOLDS.temp < data.temp then ["Extreme Heat"] else []) ++
    (if THRESHOLDS.uv < data.uv then ["High UV Radiation"] else []) ++
    (if THRESHOLDS.noise < data.noise then ["Noise Violation"] else []) ++
    (if THRESHOLDS.wind_speed < data.wind_speed then ["High Wind Speed"] else [])
  if alerts.isEmpty then none else some (String.intercalate ", " alerts)

/-- A breach rule as the specification describes it: a label and the
predicate saying the metric exceeds its threshold. -/
structure AlertRule where
  label : String
  breached : MetricSample → Bool

/-- The fixed, ordered rule set as the specification declares it:
airQualityIndex, temperature, uvIndex, noiseLevel, windSpeed. -/
def specAlertRules : List AlertRule :=
  [⟨"High Pollution", fun d => decide ((150 : Int) < d.aqi)⟩,
   ⟨"Extreme Heat", fun d => decide ((40 : Rat) < d.temp)⟩,
   ⟨"High UV Radiation", fun d => decide ((8 : Rat) < d.uv)⟩,
   ⟨"Noise Violation", fun d => decide ((85 : Rat) < d.noise)⟩,
   ⟨"High Wind Speed", fun d => decide ((20 : Rat) < d.wind_speed)⟩]

/-- Labels of the rules a sample breaches, in rule-declaration order. -/
def spec_breach_labels (d : MetricSample) : List String :=
  (specAlertRules.filter (fun r => r.breached d)).map (fun r => r.label)

/-- Ordering used by `ORDER BY timestamp ASC` on `chat_history`. -/
def chatLe (a b : ChatMsg) : Prop :=
  a.timestamp ≤ b.timestamp

instance : DecidableRel chatLe :=
  fun a b => Nat.decLe a.timestamp b.timestamp

instance : IsTotal ChatMsg chatLe :=
  ⟨fun a b => Nat.le_total a.timestamp b.timestamp⟩

instance : IsTrans ChatMsg chatLe :=
  ⟨fun _ _ _ h1 h2 => Nat.le_trans h1 h2⟩

/-- Translation of `database.save_chat_message`: insert a row with the
next AUTOINCREMENT id and the current time. -/
def save_chat_message (db : DB) (session_id role content : String) : DB :=
  { db with
    chats := db.chats ++ [⟨db.nextChatId, session_id, role, content, db.clock⟩],
    nextChatId := db.nextChatId + 1,
    clock := db.clock + 1 }

/-- Rows of `chat_history` belonging to one session
(`WHERE session_id = ?`). -/
def session_msgs (db : DB) (session_id : String) : List ChatMsg :=
  db.chats.filter (fun m => m.session_id == session_id)

/-- Rows produced by `SELECT ... WHERE session_id = ? ORDER BY timestamp
ASC LIMIT ?` before the role/content projection: sort the session's rows
by ascending timestamp, then keep the first `limit`. -/
def chat_rows (db : DB) (session_id : String) (limit : Nat) : List ChatMsg :=
  ((session_msgs db session_id).insertionSort chatLe).take limit

/-- Translation of `database.get_chat_history` (the callers use the
default `limit=10`). -/
def get_chat_history (db : DB) (session_id : String) (limit : Nat) : List (String × String) :=
  (chat_rows db session_id limit).map (fun m => (m.role, m.content))

/-- Chat log with three messages in one session, used to exercise the
history window. -/
def chatDB : DB :=
  { zones := [], alerts := [],
    chats := [⟨1, "s", "user", "m0", 0⟩, ⟨2, "s", "assistant", "m1", 1⟩,
              ⟨3, "s", "user", "m2", 2⟩],
    nextAlertId := 1, nextChatId := 4, clock := 3 }

/-- Ordering used by `ORDER BY id DESC` on `alerts`. -/
def alertDesc (a b : Alert) : Prop :=
  b.id ≤ a.id

instance : DecidableRel alertDesc :=
  fun a b => Nat.decLe b.id a.id

/-- Translation of `database.log_alert`: insert a breach row with the
next AUTOINCREMENT id and the current time. -/
def log_alert (db : DB) (zone_name : String) (m : MetricSample) (reason : String) : DB :=
  { db with
    alerts := db.alerts ++ [⟨db.nextAlertId, db.clock, zone_name, m.temp, m.humidity,
      m.wind_speed, m.aqi, m.uv, m.noise, reason⟩],
    nextAlertId := db.nextAlertId + 1,
    clock := db.clock + 1 }

/-- Translation of `database.get_recent_alerts`
(`SELECT * FROM alerts ORDER BY id DESC LIMIT ?`). -/
def get_recent_alerts (db : DB) (n : Nat) : List Alert :=
  (db.alerts.insertionSort alertDesc).take n

/-- Translation of `database.get_alert_by_id`
(`SELECT * FROM alerts WHERE id = ?`, first row or `None`). -/
def get_alert_by_id (db : DB) (alert_id : Nat) : Option Alert :=
  db.alerts.find? (fun a => a.id == alert_id)

/-- The fixed fallback message of `eco_chat` in `app/main.py`. -/
def FALLBACK_app : String :=
  "I\x27m having trouble connecting to the local sensor intelligence. Is Ollama running?"

/-- The focus block of `eco_chat` in `main.py`: the f-string rendered
for a resolved `selected_alert_id`. -/
def focus_block (alert : Alert) : String :=
  "STRICT FOCUS DATA for Alert ID " ++ toString alert.id ++ ":\n" ++
  "- Zone: " ++ alert.zone_name ++ "\n" ++
  "- Breach Reason: " ++ alert.reason ++ "\n" ++
  "- AQI: " ++ toString alert.aqi ++ ", Temp: " ++ toString alert.temp ++
  "°C, UV: " ++ toString alert.uv ++ "\n" ++
  "- Recorded at: " ++ toString alert.timestamp ++ "\n\n"

/-- The `priority_context` variable of `eco_chat` in `main.py`: empty
unless `selected_alert_id` is truthy (Python treats `None` and `0` as
falsy) and resolves to an alert. -/
def priority_context (db : DB) (selected : Option Nat) : String :=
  match selected with
  | none => ""
  | some i =>
    if i = 0 then ""
    else
      match get_alert_by_id db i with
      | none => ""
      | some alert => focus_block alert

/-- The `general_context` variable of `eco_chat` in `main.py`: the five
most recent alerts rendered one per line. -/
def general_context (db : DB) : String :=
  "SYSTEM HISTORY:\n" ++ String.intercalate "\n"
    ((get_recent_alerts db 5).map (fun a =>
      "ID: " ++ toString a.id ++ " | " ++ a.zone_name ++ " | " ++ a.reason))

/-- The fixed behaviour-rules text opening the system message of
`eco_chat` in `main.py`. -/
def rules_header : String :=
  "\n        You are EcoWatcher AI. Provide a technical environmental risk assessment.\n\n        STRICT RULES:\n        - Only use the provided metrics.\n        - If Alert ID is mentioned, analyze ONLY that data.\n        - Keep answers under 120 words.\n        - Use simple Markdown for formatting (bolding, short tables).\n\n        "

/-- The content of the system message assembled by `eco_chat` in
`main.py`: rules, then the optional focus block, then the history
block. -/
def system_content (db : DB) (selected : Option Nat) : String :=
  rules_header ++ priority_context db selected ++ "\n        " ++
    general_context db ++ "\n        "

/-- The message list sent to the completion client by `eco_chat` in
`main.py`: system message, then the bounded session history, then the
new user message. -/
def build_messages (db : DB) (query session_id : String) (selected : Option Nat) :
    List (String × String) :=
  ("system", system_content db selected) ::
    (get_chat_history db session_id 10 ++ [("user", query)])

/-- Translation of `eco_chat` in `main.py` with the completion client as
an explicit collaborator: on success the user message and the reply are
appended to the session and the reply returned; any raised failure is
caught by the surrounding `except` and turned into the response
`"Error: " ++ str(e)` with nothing persisted. -/
def eco_chat_root (db : DB) (query session_id : String) (selected : Option Nat)
    (llm : List (String × String) → Except String String) : String × DB :=
  match llm (build_messages db query session_id selected) with
  | Except.error e => ("Error: " ++ e, db)
  | Except.ok reply =>
    (reply, save_chat_message (save_chat_message db session_id "user" query)
      session_id "assistant" reply)

/-- Translation of the failure handling of `eco_chat` in `app/main.py`:
the Ollama call is wrapped in `try`, and any failure or timeout yields
the fixed fallback message (the prompt assembly, which depends on the
random metric source, is out of scope). -/
def eco_chat_app (llm : Except String String) : String :=
  match llm with
  | Except.ok r => r
  | Except.error _ => FALLBACK_app

/-- Substring containment stated through an explicit decomposition. -/
def strContains (s t : String) : Prop :=
  ∃ a b, s = a ++ (t ++ b)

/-- Alert used to instantiate the focus-block theorem. -/
def alertW : Alert :=
  ⟨1, 0, "Mumbai Central", 30, 50, 10, 200, 5, 50, "High Pollution"⟩

/-- Alert log holding exactly `alertW`. -/
def alertDBW : DB :=
  { zones := [], alerts := [alertW], chats := [],
    nextAlertId := 2, nextChatId := 1, clock := 1 }

/-- C7: registering a zone appends exactly one row whose `featured` flag
is true iff the featured count at registration time is strictly below 5;
with five zones already featured, the new zone comes out unfeatured. -/
theorem add_zone_featured_iff (db : DB) (n : String) (la lo : Rat) :
    ∃ z : Zone, (add_zone db n la lo).zones = db.zones ++ [z] ∧
      z.name = n ∧ (z.featured = true ↔ featuredCount db < 5) := by
  refine ⟨_, rfl, rfl, ?_⟩
  simp

/-- C9: a factory reset, from any prior state, empties the alert log and
the conversation memory and leaves the zone table equal to the fixed
default seed set (ids 1 to 10 in seed order) with exactly the first five
zones featured and the rest unfeatured. -/
theorem reset_and_reseed_spec (db : DB) :
    (reset_and_reseed db).alerts = [] ∧
    (reset_and_reseed db).chats = [] ∧
    (reset_and_reseed db).zones = seedZonesList ∧
    ((reset_and_reseed db).zones.take 5).countP (fun z => z.featured) = 5 ∧
    ((reset_and_reseed db).zones.drop 5).countP (fun z => z.featured) = 0 := by
  refine ⟨rfl, rfl, ?_, ?_, ?_⟩
  · show initialDB.zones = seedZonesList
    rfl
  · show (initialDB.zones.take 5).countP (fun z => z.featured) = 5
    decide
  · show (initialDB.zones.drop 5).countP (fun z => z.featured) = 0
    decide

lemma flipAt_id (zone_id : Nat) (z : Zone) : (flipAt zone_id z).id = z.id := by
  unfold flipAt
  split <;> rfl

lemma flipAt_of_ne (zone_id : Nat) (z : Zone) (h : z.id ≠ zone_id) :
    flipAt zone_id z = z := by
  simp [flipAt, h]

lemma flipAt_flipAt (zone_id : Nat) (z : Zone) :
    flipAt zone_id (flipAt zone_id z) = z := by
  cases z with
  | mk zid zname zlat zlon zfeat =>
    by_cases h : zid = zone_id
    · subst h
      simp [flipAt, Bool.not_not]
    · simp [flipAt, h]

lemma map_flipAt_of_forall_ne (zone_id : Nat) (l : List Zone)
    (h : ∀ z ∈ l, z.id ≠ zone_id) : l.map (flipAt zone_id) = l := by
  induction l with
  | nil => rfl
  | cons a t ih =>
    have ha : a.id ≠ zone_id := h a (by simp)
    simp only [List.map_cons, flipAt_of_ne zone_id a ha]
    rw [ih (fun z hz => h z (by simp [hz]))]

lemma map_flipAt_involutive (zone_id : Nat) (l : List Zone) :
    (l.map (flipAt zone_id)).map (flipAt zone_id) = l := by
  induction l with
  | nil => rfl
  | cons a t ih => simp only [List.map_cons, flipAt_flipAt, ih]

lemma toggleFlip_involutive (db : DB) (zone_id : Nat) :
    toggleFlip (toggleFlip db zone_id) zone_id = db := by
  show { db with zones := (db.zones.map (flipAt zone_id)).map (flipAt zone_id) } = db
  rw [map_flipAt_involutive]

lemma find?_toggleFlip (db : DB) (zone_id : Nat) :
    (toggleFlip db zone_id).zones.find? (fun z => z.id == zone_id) =
      (db.zones.find? (fun z => z.id == zone_id)).map (flipAt zone_id) := by
  show (db.zones.map (flipAt zone_id)).find? (fun z => z.id == zone_id) = _
  rw [List.find?_map]
  have hpred : ((fun z : Zone => z.id == zone_id) ∘ flipAt zone_id) =
      (fun z : Zone => z.id == zone_id) := by
    funext z
    simp [Function.comp, flipAt_id]
  rw [hpred]

lemma countP_flip_featured (zone_id : Nat) :
    ∀ (l : List Zone) (z : Zone), ((l.map Zone.id).Nodup) →
      l.find? (fun w => w.id == zone_id) = some z → z.featured = true →
      (l.map (flipAt zone_id)).countP (fun w => w.featured) + 1 =
        l.countP (fun w => w.featured) := by
  intro l
  induction l with
  | nil => intro z _ hfind _; simp at hfind
  | cons a t ih =>
    intro z hnd hfind hfeat
    by_cases ha : a.id = zone_id
    · have hpa : (fun w : Zone => w.id == zone_id) a = true := by simp [ha]
      rw [show List.find? (fun w : Zone => w.id == zone_id) (a :: t) = some a from
        List.find?_cons_of_pos t hpa] at hfind
      cases hfind
      have hnotin : a.id ∉ t.map Zone.id := by
        simp only [List.map_cons, List.nodup_cons] at hnd
        exact hnd.1
      have hrest : ∀ w ∈ t, w.id ≠ zone_id := by
        intro w hw hwid
        exact hnotin (List.mem_map.mpr ⟨w, hw, hwid.trans ha.symm⟩)
      have hflip : flipAt zone_id a = { a with featured := !a.featured } := by
        simp [flipAt, ha]
      simp only [List.map_cons, map_flipAt_of_forall_ne zone_id t hrest, hflip,
        List.countP_cons, hfeat, Bool.not_true]
      simp
    · have hpa : ¬ ((fun w : Zone => w.id == zone_id) a = true) := by simp [ha]
      rw [show List.find? (fun w : Zone => w.id == zone_id) (a :: t) =
          List.find? (fun w : Zone => w.id == zone_id) t from
        List.find?_cons_of_neg t hpa] at hfind
      have hnd2 : (t.map Zone.id).Nodup := by
        simp only [List.map_cons, List.nodup_cons] at hnd
        exact hnd.2
      have hih := ih z hnd2 hfind hfeat
      simp only [List.map_cons, flipAt_of_ne zone_id a ha, List.countP_cons]
      omega

lemma countP_flip_unfeatured (zone_id : Nat) :
    ∀ (l : List Zone) (z : Zone), ((l.map Zone.id).Nodup) →
      l.find? (fun w => w.id == zone_id) = some z → z.featured = false →
      (l.map (flipAt zone_id)).countP (fun w => w.featured) =
        l.countP (fun w => w.featured) + 1 := by
  intro l
  induction l with
  | nil => intro z _ hfind _; simp at hfind
  | cons a t ih =>
    intro z hnd hfind hfeat
    by_cases ha : a.id = zone_id
    · have hpa : (fun w : Zone => w.id == zone_id) a = true := by simp [ha]
      rw [show List.find? (fun w : Zone => w.id == zone_id) (a :: t) = some a from
        List.find?_cons_of_pos t hpa] at hfind
      cases hfind
      have hnotin : a.id ∉ t.map Zone.id := by
        simp only [List.map_cons, List.nodup_cons] at hnd
        exact hnd.1
      have hrest : ∀ w ∈ t, w.id ≠ zone_id := by
        intro w hw hwid
        exact hnotin (List.mem_map.mpr ⟨w, hw, hwid.trans ha.symm⟩)
      have hflip : flipAt zone_id a = { a with featured := !a.featured } := by
        simp [flipAt, ha]
      simp only [List.map_cons, map_flipAt_of_forall_ne zone_id t hrest, hflip,
        List.countP_cons, hfeat, Bool.not_false]
      simp
    · have hpa : ¬ ((fun w : Zone => w.id == zone_id) a = true) := by simp [ha]
      rw [show List.find? (fun w : Zone => w.id == zone_id) (a :: t) =
          List.find? (fun w : Zone => w.id == zone_id) t from
        List.find?_cons_of_neg t hpa] at hfind
      have hnd2 : (t.map Zone.id).Nodup := by
        simp only [List.map_cons, List.nodup_cons] at hnd
        exact hnd.2
      have hih := ih z hnd2 hfind hfeat
      simp only [List.map_cons, flipAt_of_ne zone_id a ha, List.countP_cons]
      omega

lemma le_foldl_max (l : List Zone) : ∀ acc : Nat, acc ≤ l.foldl (fun m z => max m z.id) acc := by
  induction l with
  | nil => intro acc; exact Nat.le_refl acc
  | cons a t ih =>
    intro acc
    exact Nat.le_trans (Nat.le_max_left acc a.id) (ih (max acc a.id))

lemma mem_le_foldl_max (l : List Zone) :
    ∀ (acc : Nat) (z : Zone), z ∈ l → z.id ≤ l.foldl (fun m w => max m w.id) acc := by
  induction l with
  | nil => intro acc z hz; cases hz
  | cons a t ih =>
    intro acc z hz
    rcases List.mem_cons.mp hz with h1 | h2
    · subst h1
      exact Nat.le_trans (Nat.le_max_right acc z.id) (le_foldl_max t (max acc z.id))
    · exact ih (max acc a.id) z h2

lemma mem_le_maxZoneId (db : DB) (z : Zone) (hz : z ∈ db.zones) : z.id ≤ maxZoneId db :=
  mem_le_foldl_max db.zones 0 z hz

lemma zoneInv_add (db : DB) (n : String) (la lo : Rat) (h : ZoneInv db) :
    ZoneInv (add_zone db n la lo) := by
  obtain ⟨hnd, hle⟩ := h
  constructor
  · show ((db.zones ++ [_]).map Zone.id).Nodup
    rw [List.map_append, List.nodup_append]
    refine ⟨hnd, List.nodup_singleton _, ?_⟩
    intro a ha hb
    simp only [List.map_cons, List.map_nil, List.mem_singleton] at hb
    obtain ⟨z, hz, hzid⟩ := List.mem_map.mp ha
    have := mem_le_maxZoneId db z hz
    omega
  · show (db.zones ++ [_]).countP (fun z : Zone => z.featured) ≤ 5
    rw [List.countP_append]
    have heq : db.zones.countP (fun z : Zone => z.featured) = featuredCount db := rfl
    by_cases hc : featuredCount db < 5
    · have hone : ([(⟨maxZoneId db + 1, n, la, lo, decide (featuredCount db < 5)⟩ : Zone)]).countP
            (fun z : Zone => z.featured) ≤ 1 := by
        simp [List.countP_cons, hc]
      omega
    · have hzero : ([(⟨maxZoneId db + 1, n, la, lo, decide (featuredCount db < 5)⟩ : Zone)]).countP
            (fun z : Zone => z.featured) = 0 := by
        simp [List.countP_cons, hc]
      omega

lemma zoneInv_remove (db : DB) (i : Nat) (h : ZoneInv db) :
    ZoneInv (remove_zone db i) := by
  obtain ⟨hnd, hle⟩ := h
  constructor
  · exact hnd.sublist ((List.filter_sublist db.zones).map Zone.id)
  · exact Nat.le_trans ((List.filter_sublist db.zones).countP_le _) hle

lemma toggle_eq_of_find (db : DB) (i : Nat) (row : Zone)
    (hfind : db.zones.find? (fun z => z.id == i) = some row) :
    toggle_zone_featured db i =
      if row.featured = false ∧ 5 ≤ featuredCount db then some (false, db)
      else some (true, toggleFlip db i) := by
  unfold toggle_zone_featured
  rw [hfind]

lemma toggle_eq_of_find_none (db : DB) (i : Nat)
    (hfind : db.zones.find? (fun z => z.id == i) = none) :
    toggle_zone_featured db i = none := by
  unfold toggle_zone_featured
  rw [hfind]

lemma zoneInv_toggleResult (db : DB) (i : Nat) (b : Bool) (db2 : DB) (h : ZoneInv db)
    (ht : toggle_zone_featured db i = some (b, db2)) : ZoneInv db2 := by
  obtain ⟨hnd, hle⟩ := h
  cases hfind : db.zones.find? (fun z => z.id == i) with
  | none => rw [toggle_eq_of_find_none db i hfind] at ht; cases ht
  | some row =>
    rw [toggle_eq_of_find db i row hfind] at ht
    by_cases hguard : row.featured = false ∧ 5 ≤ featuredCount db
    · rw [if_pos hguard] at ht
      cases ht
      exact ⟨hnd, hle⟩
    · rw [if_neg hguard] at ht
      cases ht
      constructor
      · show ((db.zones.map (flipAt i)).map Zone.id).Nodup
        rw [List.map_map]
        have hcomp : (Zone.id ∘ flipAt i) = Zone.id := funext fun z => flipAt_id i z
        rw [hcomp]
        exact hnd
      · show (db.zones.map (flipAt i)).countP (fun z => z.featured) ≤ 5
        by_cases hf : row.featured = true
        · have := countP_flip_featured i db.zones row hnd hfind hf
          unfold featuredCount at hle
          omega
        · have hf2 : row.featured = false := by
            cases hfeat : row.featured
            · rfl
            · exact absurd hfeat hf
          have := countP_flip_unfeatured i db.zones row hnd hfind hf2
          have hlt : ¬ 5 ≤ featuredCount db := fun hc => hguard ⟨hf2, hc⟩
          unfold featuredCount at hlt
          omega

lemma zoneInv_initial : ZoneInv initialDB := by
  constructor
  · decide
  · decide

lemma zoneInv_applyOp (db : DB) (op : RegOp) (h : ZoneInv db) : ZoneInv (applyOp db op) := by
  cases op with
  | register n la lo => exact zoneInv_add db n la lo h
  | toggle i =>
    show ZoneInv (match toggle_zone_featured db i with
      | none => db
      | some r => r.2)
    cases ht : toggle_zone_featured db i with
    | none => exact h
    | some r => exact zoneInv_toggleResult db i r.1 r.2 h (by rw [ht])
  | remove i => exact zoneInv_remove db i h
  | reset => exact zoneInv_initial

lemma zoneInv_applyOps : ∀ (ops : List RegOp) (db : DB), ZoneInv db → ZoneInv (applyOps db ops) := by
  intro ops
  induction ops with
  | nil => intro db h; exact h
  | cons op t ih =>
    intro db h
    exact ih (applyOp db op) (zoneInv_applyOp db op h)

/-- C1: starting from a freshly initialised database, any sequence of
register, toggle, remove and reset-and-reseed operations leaves at most
five zones featured. -/
theorem featured_capacity_invariant (ops : List RegOp) :
    featuredCount (applyOps emptyDB ops) ≤ 5 :=
  (zoneInv_applyOps ops emptyDB ⟨List.nodup_nil, by decide⟩).2

/-- C3: for a zone present in a well-formed registry (unique ids, at
most five featured): toggling an unfeatured zone while five are featured
returns false and mutates nothing; otherwise the toggle returns true and
flips exactly that zone's flag; toggling a featured zone always succeeds
and decrements the featured count by exactly one. -/
theorem toggle_zone_featured_spec (db : DB) (i : Nat) (row : Zone)
    (hfind : db.zones.find? (fun z => z.id == i) = some row)
    (hnd : (db.zones.map Zone.id).Nodup)
    (hle : featuredCount db ≤ 5) :
    (row.featured = false ∧ featuredCount db = 5 →
      toggle_zone_featured db i = some (false, db)) ∧
    (row.featured = true ∨ featuredCount db < 5 →
      toggle_zone_featured db i = some (true, toggleFlip db i) ∧
      (toggleFlip db i).zones.find? (fun z => z.id == i) =
        some { row with featured := !row.featured }) ∧
    (row.featured = true →
      featuredCount (toggleFlip db i) + 1 = featuredCount db) := by
  have hrowid : row.id = i := by simpa using List.find?_some hfind
  have hflipAt : flipAt i row = { row with featured := !row.featured } := by
    simp [flipAt, hrowid]
  have hflipfind : (toggleFlip db i).zones.find? (fun z => z.id == i) =
      some (flipAt i row) := by
    rw [find?_toggleFlip, hfind]
    rfl
  refine ⟨?_, ?_, ?_⟩
  · rintro ⟨h1, h2⟩
    rw [toggle_eq_of_find db i row hfind, if_pos ⟨h1, by omega⟩]
  · intro h
    have hguard : ¬ (row.featured = false ∧ 5 ≤ featuredCount db) := by
      rcases h with h | h
      · rintro ⟨hg1, _⟩
        rw [h] at hg1
        simp at hg1
      · rintro ⟨_, hg2⟩
        omega
    rw [toggle_eq_of_find db i row hfind, if_neg hguard]
    exact ⟨rfl, by rw [hflipfind, hflipAt]⟩
  · intro h
    show (db.zones.map (flipAt i)).countP (fun z => z.featured) + 1 =
      db.zones.countP (fun z => z.featured)
    exact countP_flip_featured i db.zones row hnd hfind h

/-- Witness for `toggle_zone_featured_spec`: toggling the unfeatured
zone 6 while five zones are featured fails and leaves the state as is. -/
theorem toggle_zone_featured_spec_witness :
    toggle_zone_featured zdbW 6 = some (false, zdbW) :=
  (toggle_zone_featured_spec zdbW 6 ⟨6, "f", 0, 0, false⟩ rfl (by decide) (by decide)).1
    ⟨rfl, by decide⟩

/-- C10: a successful toggle is undone by an immediately repeated toggle:
the second toggle also returns true and restores the exact prior database
state (so the zone's flag, the featured count, and every other zone are
back to their previous values). -/
theorem toggle_involutive (db : DB) (i : Nat) (db2 : DB)
    (hnd : (db.zones.map Zone.id).Nodup) (hle : featuredCount db ≤ 5)
    (h : toggle_zone_featured db i = some (true, db2)) :
    toggle_zone_featured db2 i = some (true, db) := by
  cases hfind : db.zones.find? (fun z => z.id == i) with
  | none => rw [toggle_eq_of_find_none db i hfind] at h; cases h
  | some row =>
    rw [toggle_eq_of_find db i row hfind] at h
    by_cases hguard : row.featured = false ∧ 5 ≤ featuredCount db
    · rw [if_pos hguard] at h
      simp at h
    · rw [if_neg hguard] at h
      have hpair := Option.some.inj h
      have hdb2 : toggleFlip db i = db2 := congrArg Prod.snd hpair
      subst hdb2
      have hrowid : row.id = i := by simpa using List.find?_some hfind
      have hflipAt : flipAt i row = { row with featured := !row.featured } := by
        simp [flipAt, hrowid]
      have hfind2 : (toggleFlip db i).zones.find? (fun z => z.id == i) =
          some (flipAt i row) := by
        rw [find?_toggleFlip, hfind]
        rfl
      rw [toggle_eq_of_find (toggleFlip db i) i (flipAt i row) hfind2]
      have hguard2 : ¬ ((flipAt i row).featured = false ∧
          5 ≤ featuredCount (toggleFlip db i)) := by
        rw [hflipAt]
        by_cases hf : row.featured = true
        · have hcnt := countP_flip_featured i db.zones row hnd hfind hf
          rintro ⟨_, hge⟩
          have heq1 : featuredCount db = db.zones.countP (fun z => z.featured) := rfl
          have heq2 : featuredCount (toggleFlip db i) =
            (db.zones.map (flipAt i)).countP (fun z => z.featured) := rfl
          omega
        · have hrf : row.featured = false := by
            cases hq : row.featured
            · rfl
            · exact absurd hq hf
          simp [hrf]
      rw [if_neg hguard2, toggleFlip_involutive]

/-- Witness for `toggle_involutive`: in the six-zone registry, toggling
zone 1 off and then toggling it again restores the original state. -/
theorem toggle_involutive_witness :
    toggle_zone_featured (toggleFlip zdbW 1) 1 = some (true, zdbW) :=
  toggle_involutive zdbW 1 (toggleFlip zdbW 1) (by decide) (by decide) rfl

/-- C5 counterexample: in the seeded initial state no zone has id 99;
`toggle_zone_featured` then hits `fetchone()[0]` on `None` and raises an
uncaught `TypeError` (modelled as `none`) instead of returning a
NotFound failure to the caller, while `remove_zone` completes silently
as a no-op and signals no failure at all. -/
theorem missing_id_counterexample :
    toggle_zone_featured initialDB 99 = none ∧ remove_zone initialDB 99 = initialDB :=
  ⟨rfl, rfl⟩

/-- C5 amended: on an id that names no zone, `toggle_zone_featured`
raises an uncaught error before any write (modelled as `none`, so no
NotFound result reaches the caller), and `remove_zone` silently does
nothing; in both cases the state is unchanged. -/
theorem missing_id_ops (db : DB) (i : Nat) (h : ∀ z ∈ db.zones, z.id ≠ i) :
    toggle_zone_featured db i = none ∧ remove_zone db i = db := by
  constructor
  · apply toggle_eq_of_find_none
    apply List.find?_eq_none.mpr
    intro z hz
    simpa using h z hz
  · show { db with zones := db.zones.filter (fun z => z.id != i) } = db
    have heq : db.zones.filter (fun z => z.id != i) = db.zones := by
      apply List.filter_eq_self.mpr
      intro z hz
      simpa using h z hz
    rw [heq]

/-- Witness for `missing_id_ops` at the six-zone registry and id 99. -/
theorem missing_id_ops_witness :
    toggle_zone_featured zdbW 99 = none ∧ remove_zone zdbW 99 = zdbW :=
  missing_id_ops zdbW 99 (by decide)

/-- C2: `evaluate_alerts` returns `none` exactly when every metric is at
or below its threshold, and otherwise returns the breached rule labels
joined with a comma and a space in the fixed rule-declaration order
(aqi, temp, uv, noise, wind_speed) — the order is a property of the rule
set, not of the sample. -/
theorem evaluate_alerts_spec (d : MetricSample) :
    (evaluate_alerts d = none ↔
      (d.aqi ≤ 150 ∧ d.temp ≤ 40 ∧ d.uv ≤ 8 ∧ d.noise ≤ 85 ∧ d.wind_speed ≤ 20)) ∧
    evaluate_alerts d =
      (if spec_breach_labels d = [] then none
       else some (String.intercalate ", " (spec_breach_labels d))) := by
  by_cases h1 : (150 : Int) < d.aqi <;>
    by_cases h2 : (40 : Rat) < d.temp <;>
      by_cases h3 : (8 : Rat) < d.uv <;>
        by_cases h4 : (85 : Rat) < d.noise <;>
          by_cases h5 : (20 : Rat) < d.wind_speed <;>
            simp [evaluate_alerts, spec_breach_labels, specAlertRules, THRESHOLDS,
              List.filter, not_lt, h1, h2, h3, h4, h5] <;>
              exact ⟨not_lt.mp h1, not_lt.mp h2, not_lt.mp h3, not_lt.mp h4, not_lt.mp h5⟩

/-- C4 counterexample: with three messages in the session and
`limit = 2`, `get_chat_history` returns the two OLDEST messages
(`ORDER BY timestamp ASC LIMIT 2` keeps the front of the ascending
order), so the most recent message is missing from a full window — the
window is not the most recent messages. -/
theorem chat_history_counterexample :
    get_chat_history chatDB "s" 2 = [("user", "m0"), ("assistant", "m1")] ∧
    ("user", "m2") ∉ get_chat_history chatDB "s" 2 ∧
    (⟨3, "s", "user", "m2", 2⟩ : ChatMsg) ∈ session_msgs chatDB "s" := by
  refine ⟨?_, ?_, ?_⟩ <;> decide

/-- C4 amended: `get_chat_history` returns at most `limit` messages in
chronologically ascending order, but the window kept is the EARLIEST
prefix of the session's conversation: every session message left out of
the window has a timestamp at least as large as every message inside
it. -/
theorem chat_history_spec (db : DB) (session_id : String) (limit : Nat) (m w : ChatMsg)
    (hm : m ∈ session_msgs db session_id)
    (hmnot : m ∉ chat_rows db session_id limit)
    (hw : w ∈ chat_rows db session_id limit) :
    (get_chat_history db session_id limit).length ≤ limit ∧
    List.Sorted chatLe (chat_rows db session_id limit) ∧
    w.timestamp ≤ m.timestamp := by
  have hsorted : List.Sorted chatLe ((session_msgs db session_id).insertionSort chatLe) :=
    List.sorted_insertionSort chatLe _
  refine ⟨?_, ?_, ?_⟩
  · rw [get_chat_history, List.length_map]
    exact List.length_take_le limit _
  · exact List.Pairwise.sublist (List.take_sublist limit _) hsorted
  · have hmem : m ∈ (session_msgs db session_id).insertionSort chatLe :=
      (List.mem_insertionSort chatLe).mpr hm
    have hmem2 : m ∈ ((session_msgs db session_id).insertionSort chatLe).take limit ++
        ((session_msgs db session_id).insertionSort chatLe).drop limit := by
      rw [List.take_append_drop]
      exact hmem
    have hmdrop : m ∈ ((session_msgs db session_id).insertionSort chatLe).drop limit := by
      rcases List.mem_append.mp hmem2 with h | h
      · exact absurd h hmnot
      · exact h
    have hp : List.Pairwise chatLe
        (((session_msgs db session_id).insertionSort chatLe).take limit ++
         ((session_msgs db session_id).insertionSort chatLe).drop limit) := by
      rw [List.take_append_drop]
      exact hsorted
    exact (List.pairwise_append.mp hp).2.2 w hw m hmdrop

/-- Witness for `chat_history_spec` at the three-message session with
`limit = 2`: the excluded message is the newest one. -/
theorem chat_history_spec_witness :
    (get_chat_history chatDB "s" 2).length ≤ 2 ∧
    List.Sorted chatLe (chat_rows chatDB "s" 2) ∧
    (⟨1, "s", "user", "m0", 0⟩ : ChatMsg).timestamp ≤
      (⟨3, "s", "user", "m2", 2⟩ : ChatMsg).timestamp :=
  chat_history_spec chatDB "s" 2 ⟨3, "s", "user", "m2", 2⟩ ⟨1, "s", "user", "m0", 0⟩
    (by decide) (by decide) (by decide)

/-- C6 counterexample: the failure response of `eco_chat` in `main.py`
embeds the failure's own message, so two different failures produce two
different user-visible responses and neither equals the fixed fallback —
the fallback is not input-independent. -/
theorem chat_fallback_counterexample :
    (eco_chat_root emptyDB "q" "s" none (fun _ => Except.error "timed out")).1 ≠
      (eco_chat_root emptyDB "q" "s" none (fun _ => Except.error "connection refused")).1 ∧
    (eco_chat_root emptyDB "q" "s" none (fun _ => Except.error "timed out")).1 ≠
      FALLBACK_app := by
  constructor <;> decide

/-- C6 amended: when the answer-generation collaborator fails, neither
chat operation lets the failure escape: `eco_chat` in `app/main.py`
answers with the fixed Ollama fallback message, while `eco_chat` in
`main.py` answers with `"Error: "` followed by the failure's message —
user-visible but dependent on the failure — and persists nothing. -/
theorem chat_fallback_spec (db : DB) (q sid : String) (sel : Option Nat) (e : String) :
    eco_chat_root db q sid sel (fun _ => Except.error e) = ("Error: " ++ e, db) ∧
    eco_chat_app (Except.error e) = FALLBACK_app :=
  ⟨rfl, rfl⟩

lemma priority_context_some (db : DB) (i : Nat) (hi : i ≠ 0) :
    priority_context db (some i) =
      (match get_alert_by_id db i with
       | none => ""
       | some alert => focus_block alert) := by
  show (if i = 0 then ""
        else match get_alert_by_id db i with
          | none => ""
          | some alert => focus_block alert) = _
  rw [if_neg hi]

/-- C8: in the system message assembled by `eco_chat` in `main.py`, a
`selected_alert_id` that resolves to an alert makes the message contain
that alert's zone name and breach reason; one that does not resolve
leaves the message identical to the one assembled with no selection
(the focus block is omitted silently and assembly does not fail). -/
theorem focus_context_spec (db : DB) (i : Nat) (hi : i ≠ 0) :
    (∀ a, get_alert_by_id db i = some a →
      strContains (system_content db (some i)) a.zone_name ∧
      strContains (system_content db (some i)) a.reason) ∧
    (get_alert_by_id db i = none →
      system_content db (some i) = system_content db none) := by
  constructor
  · intro a ha
    have hpc : system_content db (some i) =
        rules_header ++ focus_block a ++ "\n        " ++
          general_context db ++ "\n        " := by
      unfold system_content
      rw [priority_context_some db i hi, ha]
    constructor
    · refine ⟨rules_header ++ "STRICT FOCUS DATA for Alert ID " ++ toString a.id ++
        ":\n" ++ "- Zone: ",
        "\n" ++ "- Breach Reason: " ++ a.reason ++ "\n" ++
        "- AQI: " ++ toString a.aqi ++ ", Temp: " ++ toString a.temp ++
        "°C, UV: " ++ toString a.uv ++ "\n" ++
        "- Recorded at: " ++ toString a.timestamp ++ "\n\n" ++ "\n        " ++
        general_context db ++ "\n        ", ?_⟩
      rw [hpc]
      unfold focus_block
      simp [String.append_assoc]
    · refine ⟨rules_header ++ "STRICT FOCUS DATA for Alert ID " ++ toString a.id ++
        ":\n" ++ "- Zone: " ++ a.zone_name ++ "\n" ++ "- Breach Reason: ",
        "\n" ++ "- AQI: " ++ toString a.aqi ++ ", Temp: " ++ toString a.temp ++
        "°C, UV: " ++ toString a.uv ++ "\n" ++
        "- Recorded at: " ++ toString a.timestamp ++ "\n\n" ++ "\n        " ++
        general_context db ++ "\n        ", ?_⟩
      rw [hpc]
      unfold focus_block
      simp [String.append_assoc]
  · intro hnone
    unfold system_content
    rw [priority_context_some db i hi, hnone]
    rfl

/-- Witness for `focus_context_spec`: with the single logged alert
selected, the assembled system message contains its zone name and its
breach reason. -/
theorem focus_context_spec_witness :
    strContains (system_content alertDBW (some 1)) "Mumbai Central" ∧
    strContains (system_content alertDBW (some 1)) "High Pollution" :=
  (focus_context_spec alertDBW 1 (by decide)).1 alertW rfl
